import Mathlib

/-
Shallow embedding of the conversation-state and streaming-relay layer of the
chat relay application: the streaming POST handler in app/api/chat/route.ts,
the blocking POST handler variant, and the client-side chat panel that
reassembles the server-sent event stream (CustomChatPanel).

Machine-level concerns (HTTP transport, text encoding) are abstracted to the
structured values the handlers compute: the parsed request body, the ordered
list of server-sent event items, and the JSON response payloads.
-/

namespace ChatRelay

/-- A client-side conversational turn: `{ role, content }` as sent in the
request body `history` field and kept in the panel message list. -/
structure ClientMessage where
  role : String
  content : String
  deriving DecidableEq

/-- A typed content part of an agent input item (`input_text` for user turns,
`output_text` for assistant turns), mirroring the literals built in route.ts. -/
inductive ContentPart where
  | inputText (text : String)
  | outputText (text : String)
  deriving DecidableEq

/-- One entry of the list handed to the reasoning engine (`AgentInputItem`
in route.ts): role, optional status, and typed content parts. -/
structure AgentInputItem where
  role : String
  status : Option String
  content : List ContentPart
  deriving DecidableEq

/-- The user item pushed for the current user text, mirroring
`{ role: "user", content: [{ type: "input_text", text }] }` in route.ts. -/
def userMessage (t : String) : AgentInputItem :=
  ⟨"user", none, [ContentPart.inputText t]⟩

/-- The assistant item built for a stored assistant turn, mirroring
`{ role: "assistant", status: "completed", content: [{ type: "output_text", text }] }`. -/
def assistantMessage (t : String) : AgentInputItem :=
  ⟨"assistant", some "completed", [ContentPart.outputText t]⟩

/-- The loop in route.ts over the client-supplied `history` array: a `user`
entry becomes a user item, an `assistant` entry becomes a completed assistant
item, any other role is skipped. -/
def convertHistory : List ClientMessage → List AgentInputItem
  | [] => []
  | m :: rest =>
    if m.role = "user" then userMessage m.content :: convertHistory rest
    else if m.role = "assistant" then assistantMessage m.content :: convertHistory rest
    else convertHistory rest

/-- Per-message image of `convertHistory` on entries whose role is
`user` or `assistant`. -/
def convMsg (m : ClientMessage) : AgentInputItem :=
  if m.role = "user" then userMessage m.content else assistantMessage m.content

/-- The merged engine input built by the streaming handler: the converted
client history (empty if the field is absent) followed by the user item for
the current text. route.ts performs no truncation of this list. -/
def mergedInput (history : Option (List ClientMessage)) (t : String) : List AgentInputItem :=
  convertHistory (history.getD []) ++ [userMessage t]

/-- A parsed server-sent event payload, the tagged union written as
`data: <json>` lines by the streaming handler. -/
inductive StreamEvent where
  | textChunk (text : String)
  | final (output_text : String)
  | error (msg : String)
  deriving DecidableEq

/-- One emitted item of the response stream: either an event payload line or
the literal terminal line `data: [DONE]`. -/
inductive SSEItem where
  | event (e : StreamEvent)
  | done
  deriving DecidableEq

/-- Outcome of one streamed engine run as observed by the relay loop in
route.ts: either the chunk iteration and completion finish normally, yielding
the chunk sequence and the optional `finalOutput`, or an exception is thrown
during invocation or iteration after some chunks were already enqueued. -/
inductive RunOutcome where
  | success (chunks : List String) (finalOutput : Option String)
  | failure (chunks : List String) (errMsg : String)
  deriving DecidableEq

/-- The `final` event block: route.ts emits a `final` event exactly when
`streamedResult.finalOutput` is truthy, i.e. present and non-empty. -/
def finalEvents (fo : Option String) : List SSEItem :=
  match fo with
  | none => []
  | some f => if f = "" then [] else [SSEItem.event (StreamEvent.final f)]

/-- The `text_chunk` events emitted by the for-await loop, one per chunk,
in arrival order. -/
def chunkEvents (cs : List String) : List SSEItem :=
  cs.map (fun c => SSEItem.event (StreamEvent.textChunk c))

/-- The ordered list of items enqueued on the response stream by the
`start(controller)` body of route.ts: on success, every text chunk in order,
then the `final` block, then the `[DONE]` sentinel; on an exception, the
chunks already enqueued, then one `error` event, after which the `finally`
block closes the controller without enqueueing a sentinel. -/
def streamBody : RunOutcome → List SSEItem
  | RunOutcome.success chunks fo =>
      chunkEvents chunks ++ finalEvents fo ++ [SSEItem.done]
  | RunOutcome.failure chunks msg =>
      chunkEvents chunks ++ [SSEItem.event (StreamEvent.error msg)]

/-- Recogniser for the terminal sentinel item. -/
def isDone : SSEItem → Bool
  | SSEItem.done => true
  | _ => false

/-- Recogniser for `error` event items. -/
def isErrorEvent : SSEItem → Bool
  | SSEItem.event (StreamEvent.error _) => true
  | _ => false

/-- The JSON body sent by clients to the chat endpoint. Each field is
optional exactly as in the handlers, which destructure the parsed object. -/
structure RequestBody where
  input_as_text : Option String
  session_id : Option String
  history : Option (List ClientMessage)
  deriving DecidableEq

/-- Result of `await request.json()`: either the parse threw (malformed
payload) or it produced a body object. -/
inductive ParsedRequest where
  | malformed (msg : String)
  | ok (body : RequestBody)
  deriving DecidableEq

/-- An HTTP response as the handlers build it: a JSON response with status,
key-value body and headers, or a 200 event-stream response with its emitted
items and headers. -/
inductive Response where
  | json (status : Nat) (body : List (String × String)) (headers : List (String × String))
  | eventStream (events : List SSEItem) (headers : List (String × String))
  deriving DecidableEq

/-- Status code of a response (an event-stream response is HTTP 200). -/
def responseStatus : Response → Nat
  | Response.json s _ _ => s
  | Response.eventStream _ _ => 200

/-- Headers of a response. -/
def responseHeaders : Response → List (String × String)
  | Response.json _ _ hs => hs
  | Response.eventStream _ hs => hs

/-- Headers of the 400 validation response in route.ts. -/
def plainJsonHeaders : List (String × String) :=
  [("Content-Type", "application/json")]

/-- Headers of the outer-catch 500 response in route.ts. -/
def corsJsonHeaders : List (String × String) :=
  [("Content-Type", "application/json"), ("Access-Control-Allow-Origin", "*")]

/-- Headers of the streaming 200 response in route.ts. -/
def streamHeaders : List (String × String) :=
  [("Content-Type", "text/event-stream"),
   ("Cache-Control", "no-cache"),
   ("Connection", "keep-alive"),
   ("Access-Control-Allow-Origin", "*"),
   ("Access-Control-Allow-Methods", "POST, OPTIONS"),
   ("Access-Control-Allow-Headers", "Content-Type")]

/-- Headers of the blocking handler's 200 response. -/
def blockingOkHeaders : List (String × String) :=
  [("Content-Type", "application/json"),
   ("Access-Control-Allow-Origin", "*"),
   ("Access-Control-Allow-Methods", "POST, OPTIONS"),
   ("Access-Control-Allow-Headers", "Content-Type")]

/-- The 400 response returned when `input_as_text` is falsy. -/
def badRequest : Response :=
  Response.json 400 [("error", "input_as_text is required")] plainJsonHeaders

/-- The 500 response built by the outer catch with the caught message. -/
def internalError (msg : String) : Response :=
  Response.json 500 [("error", "Internal server error"), ("details", msg)] corsJsonHeaders

/-- The observable result of a handler invocation: the HTTP response plus the
list of history-store writes the handler performed (session id and value). -/
structure PostResult where
  response : Response
  storeWrites : List (String × List AgentInputItem)
  deriving DecidableEq

/-- The streaming POST handler of app/api/chat/route.ts over a parsed
request and an engine oracle mapping the merged input to a run outcome.
If JSON parsing threw, the outer catch returns 500. A missing or empty
`input_as_text` (falsy in the source) returns 400 before any engine work.
Otherwise the handler returns the event stream built from the engine run on
the merged input. The handler performs no history-store operation, so the
write list is empty on every path. -/
def chatPOST (req : ParsedRequest) (engine : List AgentInputItem → RunOutcome) : PostResult :=
  match req with
  | ParsedRequest.malformed msg => ⟨internalError msg, []⟩
  | ParsedRequest.ok b =>
      match b.input_as_text with
      | none => ⟨badRequest, []⟩
      | some t =>
          if t = "" then ⟨badRequest, []⟩
          else ⟨Response.eventStream (streamBody (engine (mergedInput b.history t))) streamHeaders, []⟩

/-- Outcome of a blocking (non-streaming) engine run: either `runner.run`
returned with an optional `finalOutput`, or it threw with a message. -/
inductive BlockingOutcome where
  | ran (finalOutput : Option String)
  | threw (msg : String)
  deriving DecidableEq

/-- The blocking POST handler variant (edge runtime route): validates
`input_as_text`, runs the engine on the single-element input, throws
`Agent result is undefined` when `finalOutput` is falsy (absent or empty),
and otherwise returns 200 with `{ output_text }`. Every thrown error is
caught by the outer catch and surfaced as 500. -/
def blockingPOST (req : ParsedRequest) (engine : List AgentInputItem → BlockingOutcome) : Response :=
  match req with
  | ParsedRequest.malformed msg => internalError msg
  | ParsedRequest.ok b =>
      match b.input_as_text with
      | none => badRequest
      | some t =>
          if t = "" then badRequest
          else
            match engine [userMessage t] with
            | BlockingOutcome.threw m => internalError m
            | BlockingOutcome.ran none => internalError "Agent result is undefined"
            | BlockingOutcome.ran (some f) =>
                if f = "" then internalError "Agent result is undefined"
                else Response.json 200 [("output_text", f)] blockingOkHeaders

/-- State of the client reassembler of CustomChatPanel during one streamed
request: the visible message list and the `fullText` accumulator. -/
structure ClientState where
  messages : List ClientMessage
  fullText : String
  deriving DecidableEq

/-- Assignment of the tracked assistant-message slot, mirroring
`newMessages[assistantMessageIndex] = { role: "assistant", content }`. -/
def setSlot (msgs : List ClientMessage) (idx : Nat) (c : String) : List ClientMessage :=
  msgs.set idx ⟨"assistant", c⟩

/-- One parsed event handled by the reassembler loop of CustomChatPanel:
a `text_chunk` appends to the accumulator and overwrites the slot with the
accumulator; `final` overwrites the accumulator with `output_text` when that
is non-empty (`event.output_text || fullText`) and overwrites the slot; an
`error` event's throw is swallowed by the surrounding parse catch, leaving
the state unchanged. -/
def processEvent (idx : Nat) (st : ClientState) (e : StreamEvent) : ClientState :=
  match e with
  | StreamEvent.textChunk t =>
      ⟨setSlot st.messages idx (st.fullText ++ t), st.fullText ++ t⟩
  | StreamEvent.final out =>
      let ft := if out = "" then st.fullText else out
      ⟨setSlot st.messages idx ft, ft⟩
  | StreamEvent.error _ => st

/-- The reassembler loop over a sequence of received events. -/
def processEvents (idx : Nat) (st : ClientState) (es : List StreamEvent) : ClientState :=
  es.foldl (processEvent idx) st

/-- Post-stream handling in CustomChatPanel: when the read loop has ended
and the accumulator is still empty, the tracked slot is overwritten with the
fixed fallback text `No response from agent.`; otherwise nothing changes. -/
def finishStream (idx : Nat) (st : ClientState) : ClientState :=
  if st.fullText = "" then
    ⟨setSlot st.messages idx "No response from agent.", st.fullText⟩
  else st

/-- Modelled from the spec: the History Store (the Vercel KV keyed mapping
from session id to message sequence described in MEMORY_SETUP.md) is absent
from the route sources; only its documentation snippets exist. It is modelled
as a total map from session ids to optional histories. -/
def HistoryStore : Type := String → Option (List AgentInputItem)

/-- Modelled from the spec: `get(sessionId)` returns the stored sequence or
the empty sequence when no record exists (`kv.get(session_id) || []`). -/
def HistoryStore.get (st : HistoryStore) (sid : String) : List AgentInputItem :=
  (st sid).getD []

/-- Modelled from the spec: `set(sessionId, history)` replaces the prior
value for that key (`kv.set(session_id, conversationHistory)`). -/
def HistoryStore.set (st : HistoryStore) (sid : String) (h : List AgentInputItem) : HistoryStore :=
  fun k => if k = sid then some h else st k

/-- The store with no records. -/
def HistoryStore.empty : HistoryStore := fun _ => none

/-! ### Helper lemmas -/

theorem convertHistory_eq_map (H : List ClientMessage)
    (h : ∀ m ∈ H, m.role = "user" ∨ m.role = "assistant") :
    convertHistory H = H.map convMsg := by
  induction H with
  | nil => rfl
  | cons m rest ih =>
    have hrest : ∀ x ∈ rest, x.role = "user" ∨ x.role = "assistant" :=
      fun x hx => h x (List.mem_cons_of_mem m hx)
    rcases h m (List.mem_cons_self m rest) with hu | ha
    · simp [convertHistory, convMsg, hu, ih hrest]
    · have hnu : ¬ m.role = "user" := by rw [ha]; decide
      simp [convertHistory, convMsg, hnu, ha, ih hrest]

/-! ### Claim C1 -/

/-- A stored history of ten user messages, one more than fits together with
the new user message under the claimed cap of 10. -/
def tenUserMessages : List ClientMessage := List.replicate 10 ⟨"user", "m"⟩

/-- Claim C1 is false as stated: with a ten-entry client history the merged
input handed to the engine has 11 entries, not the claimed
`min(len(H)+1, 10) = 10`; the streaming handler performs no truncation. -/
theorem merged_input_truncation_cex :
    (mergedInput (some tenUserMessages) "t").length = 11 ∧
    ¬ (mergedInput (some tenUserMessages) "t").length = min (tenUserMessages.length + 1) 10 := by
  decide

/-- Claim C1 (amended): for a history of user/assistant messages, the merged
input is the whole converted history followed by the user message for the new
text — length `len(H)+1` with no truncation, last element the user message,
and entry `i` the conversion of `H[i]` (no reordering, no deduplication). -/
theorem merged_input_assembly :
    ∀ (H : List ClientMessage) (t : String),
      (∀ m ∈ H, m.role = "user" ∨ m.role = "assistant") →
      (mergedInput (some H) t).length = H.length + 1 ∧
      (mergedInput (some H) t).getLast? = some (userMessage t) ∧
      ∀ i, i < H.length → (mergedInput (some H) t)[i]? = (H[i]?).map convMsg := by
  intro H t h
  have hconv := convertHistory_eq_map H h
  refine ⟨?_, ?_, ?_⟩
  · simp [mergedInput, hconv]
  · simp [mergedInput]
  · intro i hi
    have hH : (some H).getD [] = H := rfl
    rw [mergedInput, hH, hconv, List.getElem?_append]
    simp [List.getElem?_map, hi]

/-- Witness for `merged_input_assembly` at a two-turn history and the new
text `q`. -/
theorem merged_input_assembly_witness :
    (∀ m ∈ ([⟨"user", "a"⟩, ⟨"assistant", "b"⟩] : List ClientMessage),
        m.role = "user" ∨ m.role = "assistant") ∧
    (mergedInput (some [⟨"user", "a"⟩, ⟨"assistant", "b"⟩]) "q").length = 2 + 1 ∧
    (mergedInput (some [⟨"user", "a"⟩, ⟨"assistant", "b"⟩]) "q").getLast? = some (userMessage "q") ∧
    (mergedInput (some [⟨"user", "a"⟩, ⟨"assistant", "b"⟩]) "q")[0]? =
      (([⟨"user", "a"⟩, ⟨"assistant", "b"⟩] : List ClientMessage)[0]?).map convMsg :=
  ⟨by decide,
   (merged_input_assembly _ "q" (by decide)).1,
   (merged_input_assembly _ "q" (by decide)).2.1,
   (merged_input_assembly _ "q" (by decide)).2.2 0 (by decide)⟩

/-! ### Claim C2 -/

theorem chunkEvents_countP_isDone (cs : List String) :
    (chunkEvents cs).countP isDone = 0 := by
  induction cs with
  | nil => rfl
  | cons c rest ih => simp [chunkEvents, List.countP_cons, isDone]

theorem chunkEvents_countP_isError (cs : List String) :
    (chunkEvents cs).countP isErrorEvent = 0 := by
  induction cs with
  | nil => rfl
  | cons c rest ih => simp [chunkEvents, List.countP_cons, isErrorEvent]

theorem finalEvents_countP_isDone (fo : Option String) :
    (finalEvents fo).countP isDone = 0 := by
  cases fo with
  | none => rfl
  | some f =>
    by_cases hf : f = "" <;> simp [finalEvents, hf, List.countP_cons, isDone]

/-- Claim C2 is false as stated: on the error path the stream carries the
single `error` event but no terminal sentinel at all — the controller is
closed without enqueueing `data: [DONE]`. -/
theorem stream_relay_sentinel_cex :
    SSEItem.done ∉ streamBody (RunOutcome.failure [] "engine exploded") ∧
    (streamBody (RunOutcome.failure [] "engine exploded")).countP isErrorEvent = 1 := by
  decide

/-- Claim C2 (amended): every successful run emits exactly one terminal
sentinel, as the last item of the stream; on the error path exactly one
`error` event is emitted, it is the last item, and no sentinel is emitted
before the channel is released. -/
theorem stream_relay_sentinel :
    (∀ (chunks : List String) (fo : Option String),
        (streamBody (RunOutcome.success chunks fo)).countP isDone = 1 ∧
        (streamBody (RunOutcome.success chunks fo)).getLast? = some SSEItem.done) ∧
    (∀ (chunks : List String) (msg : String),
        (streamBody (RunOutcome.failure chunks msg)).countP isDone = 0 ∧
        (streamBody (RunOutcome.failure chunks msg)).countP isErrorEvent = 1 ∧
        (streamBody (RunOutcome.failure chunks msg)).getLast? =
          some (SSEItem.event (StreamEvent.error msg))) := by
  constructor
  · intro chunks fo
    constructor
    · simp [streamBody, List.countP_append, chunkEvents_countP_isDone,
        finalEvents_countP_isDone, List.countP_cons, isDone]
    · rw [streamBody, List.getLast?_concat]
  · intro chunks msg
    refine ⟨?_, ?_, ?_⟩
    · simp [streamBody, List.countP_append, chunkEvents_countP_isDone,
        List.countP_cons, isDone]
    · simp [streamBody, List.countP_append, chunkEvents_countP_isError,
        List.countP_cons, isErrorEvent]
    · rw [streamBody, List.getLast?_concat]

/-! ### Claim C4 -/

/-- Claim C4: a `final` event appears in the stream only when the engine's
authoritative final text is present and non-empty, in which case the stream
is exactly the chunk events in order, then the `final` event, then the
terminal sentinel; the error path never emits a `final` event. -/
theorem final_event_placement :
    ∀ (chunks : List String) (fo : Option String) (f : String),
      (SSEItem.event (StreamEvent.final f) ∈ streamBody (RunOutcome.success chunks fo) →
        f ≠ "" ∧ fo = some f ∧
        streamBody (RunOutcome.success chunks fo) =
          chunkEvents chunks ++ [SSEItem.event (StreamEvent.final f), SSEItem.done]) ∧
      (∀ msg, SSEItem.event (StreamEvent.final f) ∉ streamBody (RunOutcome.failure chunks msg)) := by
  intro chunks fo f
  constructor
  · intro hmem
    have hnotchunk : SSEItem.event (StreamEvent.final f) ∉ chunkEvents chunks := by
      simp [chunkEvents]
    cases fo with
    | none =>
      exfalso
      simp [streamBody, finalEvents, chunkEvents] at hmem
    | some g =>
      by_cases hg : g = ""
      · exfalso
        simp [streamBody, finalEvents, hg, chunkEvents] at hmem
      · have hfg : f = g := by
          simp [streamBody, finalEvents, hg, chunkEvents] at hmem
          exact hmem
        subst hfg
        refine ⟨hg, rfl, ?_⟩
        simp [streamBody, finalEvents, hg]
  · intro msg
    simp [streamBody, chunkEvents]

/-- Witness for `final_event_placement`: a run with one chunk and the
non-empty final text `b`. -/
theorem final_event_placement_witness :
    SSEItem.event (StreamEvent.final "b") ∈ streamBody (RunOutcome.success ["a"] (some "b")) ∧
    (("b" : String) ≠ "" ∧ (some "b" : Option String) = some "b" ∧
      streamBody (RunOutcome.success ["a"] (some "b")) =
        chunkEvents ["a"] ++ [SSEItem.event (StreamEvent.final "b"), SSEItem.done]) :=
  ⟨by decide, (final_event_placement ["a"] (some "b") "b").1 (by decide)⟩

/-! ### Claim C3 -/

/-- Claim C3 is false as stated: a request whose streamed generation fully
succeeds (one chunk, non-empty final text, sentinel emitted) produces an
empty list of history-store writes — the handler never writes the updated
history back to any store. -/
theorem history_store_writeback_cex :
    chatPOST (ParsedRequest.ok ⟨some "hi", some "s1", none⟩)
        (fun _ => RunOutcome.success ["Hello"] (some "Hello")) =
      ⟨Response.eventStream
          [SSEItem.event (StreamEvent.textChunk "Hello"),
           SSEItem.event (StreamEvent.final "Hello"), SSEItem.done] streamHeaders,
        []⟩ := by
  rfl

/-- Claim C3 (amended): for the spec-modelled History Store, `set` followed
by `get` on the same session id returns the written sequence, and `get` on a
store with no record returns the empty sequence; but the streaming handler
itself performs no store write on any path, so no updated history is written
back after a streamed generation. -/
theorem history_store_roundtrip :
    (∀ (st : HistoryStore) (sid : String) (h : List AgentInputItem),
        (st.set sid h).get sid = h) ∧
    (∀ sid : String, HistoryStore.empty.get sid = []) ∧
    (∀ (req : ParsedRequest) (engine : List AgentInputItem → RunOutcome),
        (chatPOST req engine).storeWrites = []) := by
  refine ⟨?_, ?_, ?_⟩
  · intro st sid h
    simp [HistoryStore.get, HistoryStore.set]
  · intro sid
    rfl
  · intro req engine
    cases req with
    | malformed m => rfl
    | ok b =>
      cases hb : b.input_as_text with
      | none => simp [chatPOST, hb]
      | some t => by_cases ht : t = "" <;> simp [chatPOST, hb, ht]

/-! ### Claim C5 -/

/-- Claim C5: a request body with `input_as_text` missing or equal to the
empty string is answered with HTTP 400 and body
`{ error: "input_as_text is required" }`, for every engine (so the engine is
never consulted), and with no store write. -/
theorem empty_input_rejected :
    ∀ (b : RequestBody) (engine : List AgentInputItem → RunOutcome),
      (b.input_as_text = none ∨ b.input_as_text = some "") →
      chatPOST (ParsedRequest.ok b) engine =
        ⟨Response.json 400 [("error", "input_as_text is required")] plainJsonHeaders, []⟩ := by
  intro b engine h
  rcases h with h | h <;> simp [chatPOST, h, badRequest]

/-- Witness for `empty_input_rejected`: the empty-string request body. -/
theorem empty_input_rejected_witness :
    ((⟨some "", some "s1", none⟩ : RequestBody).input_as_text = none ∨
      (⟨some "", some "s1", none⟩ : RequestBody).input_as_text = some "") ∧
    chatPOST (ParsedRequest.ok ⟨some "", some "s1", none⟩)
        (fun _ => RunOutcome.failure [] "never invoked") =
      ⟨Response.json 400 [("error", "input_as_text is required")] plainJsonHeaders, []⟩ :=
  ⟨Or.inr rfl, empty_input_rejected _ _ (Or.inr rfl)⟩

/-! ### Claim C6 -/

/-- Claim C6 is false as stated: a malformed (non-JSON-parseable) payload is
answered by the outer catch with HTTP 500, not HTTP 400. -/
theorem malformed_request_cex :
    responseStatus (chatPOST (ParsedRequest.malformed "Unexpected end of JSON input")
        (fun _ => RunOutcome.success [] none)).response = 500 ∧
    ¬ responseStatus (chatPOST (ParsedRequest.malformed "Unexpected end of JSON input")
        (fun _ => RunOutcome.success [] none)).response = 400 := by
  decide

/-- Claim C6 (amended): a malformed request payload is surfaced immediately
as HTTP 500 with body `{ error: "Internal server error", details: <message> }`,
for every engine, with no store write (no partial state). -/
theorem malformed_request_500 :
    ∀ (msg : String) (engine : List AgentInputItem → RunOutcome),
      chatPOST (ParsedRequest.malformed msg) engine =
        ⟨Response.json 500 [("error", "Internal server error"), ("details", msg)]
            corsJsonHeaders, []⟩ := by
  intro msg engine
  rfl

/-! ### Claim C7 -/

/-- Claim C7: in blocking mode, with a valid non-empty input, an engine run
whose final output is absent or the empty string yields the 500
`Internal server error` response with details `Agent result is undefined`
(never an empty-string success), while a non-empty final output yields
HTTP 200 with `{ output_text }` equal to it. -/
theorem blocking_mode_output :
    ∀ (b : RequestBody) (t : String) (engine : List AgentInputItem → BlockingOutcome),
      b.input_as_text = some t → t ≠ "" →
      ((engine [userMessage t] = BlockingOutcome.ran none ∨
          engine [userMessage t] = BlockingOutcome.ran (some "")) →
        blockingPOST (ParsedRequest.ok b) engine =
          Response.json 500
            [("error", "Internal server error"), ("details", "Agent result is undefined")]
            corsJsonHeaders) ∧
      (∀ f, engine [userMessage t] = BlockingOutcome.ran (some f) → f ≠ "" →
        blockingPOST (ParsedRequest.ok b) engine =
          Response.json 200 [("output_text", f)] blockingOkHeaders) := by
  intro b t engine hb ht
  constructor
  · intro hrun
    rcases hrun with h | h <;> simp [blockingPOST, hb, ht, h, internalError]
  · intro f hrun hf
    simp [blockingPOST, hb, ht, hrun, hf]

/-- Witness for `blocking_mode_output`: input `hi`, an engine returning the
non-empty final output `ans`. -/
theorem blocking_mode_output_witness :
    (⟨some "hi", none, none⟩ : RequestBody).input_as_text = some "hi" ∧
    ("hi" : String) ≠ "" ∧
    blockingPOST (ParsedRequest.ok ⟨some "hi", none, none⟩)
        (fun _ => BlockingOutcome.ran (some "ans")) =
      Response.json 200 [("output_text", "ans")] blockingOkHeaders :=
  ⟨rfl, by decide,
   (blocking_mode_output _ "hi" _ rfl (by decide)).2 "ans" rfl (by decide)⟩

/-! ### Claim C8 -/

theorem getElem?_set_self_of_lt {α : Type} :
    ∀ (l : List α) (i : Nat) (a : α), i < l.length → (l.set i a)[i]? = some a := by
  intro l
  induction l with
  | nil => intro i a h; exact absurd h (by simp)
  | cons x xs ih =>
    intro i a h
    cases i with
    | zero => simp [List.set]
    | succ j =>
      have hj : j < xs.length := by simpa using h
      simpa [List.set] using ih j a hj

theorem processChunks_eq (idx : Nat) :
    ∀ (chunks : List String) (msgs : List ClientMessage) (acc : String), chunks ≠ [] →
      processEvents idx ⟨msgs, acc⟩ (chunks.map StreamEvent.textChunk) =
        ⟨setSlot msgs idx (chunks.foldl (· ++ ·) acc), chunks.foldl (· ++ ·) acc⟩ := by
  intro chunks
  induction chunks with
  | nil => intro msgs acc h; exact absurd rfl h
  | cons c rest ih =>
    intro msgs acc _
    have hstep : processEvents idx ⟨msgs, acc⟩ ((c :: rest).map StreamEvent.textChunk) =
        processEvents idx ⟨setSlot msgs idx (acc ++ c), acc ++ c⟩
          (rest.map StreamEvent.textChunk) := rfl
    by_cases hr : rest = []
    · subst hr
      simp [processEvents, processEvent, List.foldl]
    · rw [hstep, ih (setSlot msgs idx (acc ++ c)) (acc ++ c) hr]
      simp [setSlot, List.set_set, List.foldl]

/-- Claim C8: starting from a state whose tracked slot is the empty assistant
message, after any prefix of `text_chunk` events the accumulator and the
tracked slot both hold exactly the concatenation of the chunk texts received
so far, and re-assigning the slot with the same content is idempotent
(replacement, not append). -/
theorem reassembler_replaces :
    ∀ (chunks : List String) (msgs : List ClientMessage) (idx : Nat),
      msgs[idx]? = some ⟨"assistant", ""⟩ →
      (processEvents idx ⟨msgs, ""⟩ (chunks.map StreamEvent.textChunk)).fullText =
        chunks.foldl (· ++ ·) "" ∧
      (processEvents idx ⟨msgs, ""⟩ (chunks.map StreamEvent.textChunk)).messages[idx]? =
        some ⟨"assistant", chunks.foldl (· ++ ·) ""⟩ ∧
      ∀ c : String, setSlot (setSlot msgs idx c) idx c = setSlot msgs idx c := by
  intro chunks msgs idx hslot
  have hlt : idx < msgs.length := by
    by_contra hge
    rw [List.getElem?_eq_none (Nat.le_of_not_lt hge)] at hslot
    cases hslot
  have hidem : ∀ c : String, setSlot (setSlot msgs idx c) idx c = setSlot msgs idx c := by
    intro c
    simp [setSlot, List.set_set]
  cases chunks with
  | nil =>
    refine ⟨rfl, ?_, hidem⟩
    simpa [processEvents] using hslot
  | cons c rest =>
    have h := processChunks_eq idx (c :: rest) msgs "" (by simp)
    rw [h]
    refine ⟨rfl, ?_, hidem⟩
    simpa [setSlot] using
      getElem?_set_self_of_lt msgs idx ⟨"assistant", (c :: rest).foldl (· ++ ·) ""⟩ hlt

/-- Witness for `reassembler_replaces`: two chunks `Hel`, `lo` arriving into
a panel whose slot 1 is the empty assistant message. -/
theorem reassembler_replaces_witness :
    ([⟨"user", "hi"⟩, ⟨"assistant", ""⟩] : List ClientMessage)[1]? =
      some ⟨"assistant", ""⟩ ∧
    (processEvents 1 ⟨[⟨"user", "hi"⟩, ⟨"assistant", ""⟩], ""⟩
        (["Hel", "lo"].map StreamEvent.textChunk)).fullText =
      (["Hel", "lo"] : List String).foldl (· ++ ·) "" ∧
    (processEvents 1 ⟨[⟨"user", "hi"⟩, ⟨"assistant", ""⟩], ""⟩
        (["Hel", "lo"].map StreamEvent.textChunk)).messages[1]? =
      some ⟨"assistant", (["Hel", "lo"] : List String).foldl (· ++ ·) ""⟩ ∧
    setSlot (setSlot [⟨"user", "hi"⟩, ⟨"assistant", ""⟩] 1 "Hello") 1 "Hello" =
      setSlot [⟨"user", "hi"⟩, ⟨"assistant", ""⟩] 1 "Hello" :=
  ⟨rfl,
   (reassembler_replaces ["Hel", "lo"] _ 1 rfl).1,
   (reassembler_replaces ["Hel", "lo"] _ 1 rfl).2.1,
   (reassembler_replaces ["Hel", "lo"] _ 1 rfl).2.2 "Hello"⟩

/-! ### Claim C9 -/

/-- Claim C9 is false as stated: when the stream ends with an empty
accumulator the slot is set to `No response from agent.`, which is not the
fixed string `no response` named by the claim. -/
theorem empty_stream_fallback_cex :
    (finishStream 1 ⟨[⟨"user", "hi"⟩, ⟨"assistant", ""⟩], ""⟩).messages[1]? =
      some ⟨"assistant", "No response from agent."⟩ ∧
    ("No response from agent." : String) ≠ "no response" := by
  decide

/-- Claim C9 (amended): when the stream terminates with the accumulator
still empty, the tracked assistant-message slot is overwritten with the
fixed fallback string `No response from agent.` rather than left blank. -/
theorem empty_stream_fallback :
    ∀ (st : ClientState) (idx : Nat),
      st.fullText = "" →
      finishStream idx st = ⟨setSlot st.messages idx "No response from agent.", ""⟩ := by
  intro st idx h
  simp [finishStream, h]

/-- Witness for `empty_stream_fallback` at a concrete two-message panel. -/
theorem empty_stream_fallback_witness :
    (⟨[⟨"user", "hi"⟩, ⟨"assistant", ""⟩], ""⟩ : ClientState).fullText = "" ∧
    finishStream 1 ⟨[⟨"user", "hi"⟩, ⟨"assistant", ""⟩], ""⟩ =
      ⟨setSlot [⟨"user", "hi"⟩, ⟨"assistant", ""⟩] 1 "No response from agent.", ""⟩ :=
  ⟨rfl, empty_stream_fallback _ 1 rfl⟩

/-! ### Claim C10 -/

/-- Claim C10: the streaming handler never reads `session_id`; two request
bodies agreeing on `input_as_text` and `history` but differing arbitrarily in
`session_id` produce identical handler results (hence identical event
streams and response headers) for every engine. -/
theorem session_id_independent :
    ∀ (b1 b2 : RequestBody) (engine : List AgentInputItem → RunOutcome),
      b1.input_as_text = b2.input_as_text →
      b1.history = b2.history →
      chatPOST (ParsedRequest.ok b1) engine = chatPOST (ParsedRequest.ok b2) engine ∧
      responseHeaders (chatPOST (ParsedRequest.ok b1) engine).response =
        responseHeaders (chatPOST (ParsedRequest.ok b2) engine).response := by
  intro b1 b2 engine h1 h2
  cases b1
  cases b2
  simp only [RequestBody.mk.injEq] at *
  subst h1
  subst h2
  exact ⟨rfl, rfl⟩

/-- Witness for `session_id_independent`: same text and history, one request
with a session id and one without. -/
theorem session_id_independent_witness :
    (⟨some "hi", some "alpha", none⟩ : RequestBody).input_as_text =
      (⟨some "hi", none, none⟩ : RequestBody).input_as_text ∧
    (⟨some "hi", some "alpha", none⟩ : RequestBody).history =
      (⟨some "hi", none, none⟩ : RequestBody).history ∧
    chatPOST (ParsedRequest.ok ⟨some "hi", some "alpha", none⟩)
        (fun _ => RunOutcome.success ["x"] none) =
      chatPOST (ParsedRequest.ok ⟨some "hi", none, none⟩)
        (fun _ => RunOutcome.success ["x"] none) ∧
    responseHeaders (chatPOST (ParsedRequest.ok ⟨some "hi", some "alpha", none⟩)
        (fun _ => RunOutcome.success ["x"] none)).response =
      responseHeaders (chatPOST (ParsedRequest.ok ⟨some "hi", none, none⟩)
        (fun _ => RunOutcome.success ["x"] none)).response :=
  ⟨rfl, rfl,
   (session_id_independent _ _ _ rfl rfl).1,
   (session_id_independent _ _ _ rfl rfl).2⟩

end ChatRelay
